import Mathlib

/-!
Verification of the Koramangala OSM population-catchment scripts.

This file shallowly embeds the raster-vector catchment aggregation code of
`scripts/11_worldpop_population.py` and `scripts/09_add_worldpop_data.py`:

* cell values of a WorldPop raster (valid number / no-data sentinel / NaN),
* buffer construction around POI geometries (`create_buffer_zones`),
* polygon-masked extraction and summation (`extract_population_from_raster`),
* the API-fallback estimator (`estimate_population_simple`,
  `create_population_estimates_api`),
* the pivoted output table (`save_results`),
* the per-POI at-location and window extraction of
  `create_poi_population_analysis`.

Floating-point arithmetic of the Python code is modelled by exact rational
arithmetic; `np.pi` is modelled by the exact rational value of the IEEE-754
double that numpy uses.  Geometries are modelled in the metric (UTM) plane:
the EPSG:4326 to EPSG:32643 reprojection and back is a pointwise coordinate
change that does not alter which cell centers fall inside a buffer, so set
membership is expressed directly in metric coordinates.
-/

namespace Koramangala

/-- A raster cell value as seen by the scripts: a valid number, the declared
no-data sentinel (masked by `rasterio` when reading with `masked=True` /
`filled=False`), or an IEEE NaN stored in the band. -/
inductive CellVal
  | valid (v : ℚ)
  | nodata
  | nan
deriving DecidableEq

/-- Squared Euclidean distance between two points of the metric plane. -/
def sqDist (p q : ℚ × ℚ) : ℚ := (p.1 - q.1) ^ 2 + (p.2 - q.2) ^ 2

/-- Clamp a coordinate into an interval, as used for the distance from a
point to an axis-aligned rectangle. -/
def clampQ (a lo hi : ℚ) : ℚ := max lo (min a hi)

/-- A POI geometry in metric (UTM) coordinates: a point, or a polygon.
Mirrors the `Point` / non-`Point` distinction the scripts make via
`poi.geometry.geom_type`.  The polygon case is carried here by the
axis-aligned rectangle, one concrete shapely polygon used as a witness
shape; real shapely polygons can also be non-convex, with an area centroid
lying outside the geometry, so no property proved only for rectangles is
asserted of polygons in general. -/
inductive Geom
  | pt (x y : ℚ)
  | rect (x0 y0 x1 y1 : ℚ)
deriving DecidableEq

/-- Squared distance from a point of the plane to a geometry (0 inside). -/
def Geom.sqDistTo : Geom → ℚ × ℚ → ℚ
  | .pt x y, p => sqDist (x, y) p
  | .rect x0 y0 x1 y1, p => sqDist (clampQ p.1 x0 x1, clampQ p.2 y0 y1) p

/-- Shapely `geometry.centroid`: the point itself for a point, the midpoint
for a rectangle. -/
def Geom.centroid : Geom → ℚ × ℚ
  | .pt x y => (x, y)
  | .rect x0 y0 x1 y1 => ((x0 + x1) / 2, (y0 + y1) / 2)

/-- Membership of a plane point in the shapely buffer
`geometry.buffer(r)` (scripts/11_worldpop_population.py line 176): the set
of points within distance `r` of the geometry.  `point.buffer(r)` with
`r <= 0` is the empty polygon; `rect.buffer(0)` is the rectangle itself.
The polygonal approximation of the circle used by shapely is modelled by
the exact disc. -/
def inBuffer (g : Geom) (r : ℚ) (p : ℚ × ℚ) : Bool :=
  match g with
  | .pt x y => decide (0 < r) && decide ((Geom.pt x y).sqDistTo p ≤ r ^ 2)
  | .rect x0 y0 x1 y1 =>
      decide (0 ≤ r) && decide ((Geom.rect x0 y0 x1 y1).sqDistTo p ≤ r ^ 2)

/-- One raster cell: the metric coordinates of its center and its value. -/
structure GCell where
  cx : ℚ
  cy : ℚ
  val : CellVal
deriving DecidableEq

/-- A raster, as the list of its cells. -/
abbrev Grid := List GCell

/-- `rasterio.mask.mask(src, geom, crop=True, filled=False)` followed by
taking band 0 (scripts/11_worldpop_population.py line 203): the cells of the
raster whose center lies inside the buffer polygon (`all_touched` defaults
to `False`, so a cell is rasterized as inside exactly when its center is
covered); cells outside the polygon are masked out, i.e. dropped from the
sum. -/
def sampled (grid : Grid) (g : Geom) (r : ℚ) : List CellVal :=
  (grid.filter fun c => inBuffer g r (c.cx, c.cy)).map (·.val)

/-- `clipped_img[0][~np.isnan(clipped_img[0])]` restricted to the entries
that actually contribute to the masked-array sum
(scripts/11_worldpop_population.py lines 206-207): NaN entries are removed
by the `isnan` filter, and no-data entries are masked by
`read(masked=True)` inside `rasterio.mask.mask`, hence ignored by `.sum()`.
Only valid values remain. -/
def validValues : List CellVal → List ℚ
  | [] => []
  | .valid q :: l => q :: validValues l
  | .nodata :: l => validValues l
  | .nan :: l => validValues l

/-- `total_population = valid_data.sum() if len(valid_data) > 0 else 0`
(scripts/11_worldpop_population.py line 207) for the buffer of radius `r`
around geometry `g`: the sum of the valid, in-polygon cell values (the sum
of the empty list is 0, matching the `else 0` branch). -/
def total_population (grid : Grid) (g : Geom) (r : ℚ) : ℚ :=
  (validValues (sampled grid g r)).sum

/-- The numeric contribution of a cell to a population sum: its value when
valid, nothing (0) when no-data or NaN. -/
def cellContrib (c : GCell) : ℚ :=
  match c.val with
  | .valid v => v
  | .nodata => 0
  | .nan => 0

/-- A POI feature as loaded from `koramangala_pois.geojson`: geometry plus
the `name` and `category` attributes the scripts read with `.get`. -/
structure Poi where
  geom : Geom
  name : String
  category : String
deriving DecidableEq

/-- One row of a buffer layer produced by `create_buffer_zones`: the source
feature, the `buffer_distance` column and the `poi_id` column.  The buffered
geometry itself is determined by `(poi.geom, buffer_distance)` through
`inBuffer`. -/
structure BufferRow where
  poi : Poi
  buffer_distance : ℚ
  poi_id : ℕ
deriving DecidableEq

/-- `WorldPopPythonAPI.create_buffer_zones`
(scripts/11_worldpop_population.py lines 163-184): for each requested
distance, copy the POI table, buffer every geometry by that distance
(`pois_utm.geometry.buffer(distance)` — note: the full geometry is buffered,
not its centroid), and add the `buffer_distance` and `poi_id` columns.
The function performs no validation of the distances and raises nothing. -/
def create_buffer_zones (pois : List Poi) (buffer_distances : List ℚ) :
    List (ℚ × List BufferRow) :=
  buffer_distances.map fun distance =>
    (distance,
      pois.enum.map fun ig =>
        { poi := ig.2, buffer_distance := distance, poi_id := ig.1 })

/-- The exact rational value of the IEEE-754 double `np.pi`
(3.141592653589793115997963...). -/
def np_pi : ℚ := 884279719003555 / 281474976710656

/-- Python `int(x)` on a number: truncation toward zero. -/
def int_trunc (q : ℚ) : ℤ := if 0 ≤ q then Int.floor q else -Int.floor (-q)

/-- `WorldPopPythonAPI.estimate_population_simple`
(scripts/11_worldpop_population.py lines 278-297).  `rand` is the value
returned by the single `np.random.random()` call (a draw from `[0,1)`);
everything else is exactly the source: `buffer_area_km2 = np.pi *
(buffer_meters/1000)**2`, hard-coded `estimated_density = 6000`,
`variation_factor = 0.8 + 0.4 * rand`, and the result is
`int(buffer_area_km2 * estimated_density * variation_factor)`.  The `lat`
and `lon` parameters are accepted but never read, as in the source. -/
def estimate_population_simple (lat lon buffer_meters : ℚ) (rand : ℚ) : ℤ :=
  let buffer_area_km2 : ℚ := np_pi * (buffer_meters / 1000) ^ 2
  let estimated_density : ℚ := 6000
  let variation_factor : ℚ := 8 / 10 + 4 / 10 * rand
  let _ := lat
  let _ := lon
  int_trunc (buffer_area_km2 * estimated_density * variation_factor)

/-- One record appended by `create_population_estimates_api`
(scripts/11_worldpop_population.py lines 253-274).  Note the record carries
an `estimation_method` key, and no `data_source` key. -/
structure EstRecord where
  poi_id : ℕ
  poi_name : String
  poi_category : String
  latitude : ℚ
  longitude : ℚ
  buffer_distance : ℚ
  population_total : ℤ
  population_density : ℚ
  estimation_method : String
deriving DecidableEq

/-- `WorldPopPythonAPI.create_population_estimates_api`
(scripts/11_worldpop_population.py lines 239-276): for every POI (point
coordinates taken directly, polygon coordinates via the centroid) and every
buffer distance, call `estimate_population_simple` and append a record
tagged `estimation_method = 'api_fallback'`.  The random stream is modelled
by `rand` indexed by the running call count. -/
def create_population_estimates_api (pois : List Poi)
    (buffer_distances : List ℚ) (rand : ℕ → ℚ) : List EstRecord :=
  pois.enum.flatMap fun ipoi =>
    let lat := ipoi.2.geom.centroid.2
    let lon := ipoi.2.geom.centroid.1
    buffer_distances.enum.map fun jd =>
      let pop_estimate :=
        estimate_population_simple lat lon jd.2
          (rand (ipoi.1 * buffer_distances.length + jd.1))
      { poi_id := ipoi.1
        poi_name := ipoi.2.name
        poi_category := ipoi.2.category
        latitude := lat
        longitude := lon
        buffer_distance := jd.2
        population_total := pop_estimate
        population_density :=
          if 0 < pop_estimate then
            (pop_estimate : ℚ) / (np_pi * jd.2 ^ 2 / 10000)
          else 0
        estimation_method := "api_fallback" }

/-- Pandas `.round(0)` (numpy rounding): round half to even, to an
integer-valued rational. -/
def round0 (q : ℚ) : ℚ :=
  let f : ℤ := Int.floor q
  let frac := q - (f : ℚ)
  if frac < 1 / 2 then (f : ℚ)
  else if 1 / 2 < frac then ((f + 1 : ℤ) : ℚ)
  else if f % 2 = 0 then (f : ℚ) else ((f + 1 : ℤ) : ℚ)

/-- The pivot index of `save_results`
(scripts/11_worldpop_population.py lines 305-310):
`['poi_id', 'poi_name', 'poi_category', 'latitude', 'longitude']`. -/
def pivot_key (r : EstRecord) : ℕ × String × String × ℚ × ℚ :=
  (r.poi_id, r.poi_name, r.poi_category, r.latitude, r.longitude)

/-- Keep the first occurrence of each element (the key rows of the pivot;
`aggfunc='first'` keeps the first record per key). -/
def dedupFirstAux [DecidableEq α] (seen : List α) : List α → List α
  | [] => []
  | a :: l =>
      if a ∈ seen then dedupFirstAux seen l
      else a :: dedupFirstAux (a :: seen) l

/-- First-occurrence deduplication. -/
def dedupFirst [DecidableEq α] (l : List α) : List α := dedupFirstAux [] l

/-- `aggfunc='first'` for the `population_total` column: the first record
matching the pivot key and the buffer distance, rounded by `.round(0)`. -/
def pick_total (recs : List EstRecord) (k : ℕ × String × String × ℚ × ℚ)
    (d : ℚ) : Option ℚ :=
  (recs.find? fun r => decide (pivot_key r = k ∧ r.buffer_distance = d)).map
    fun r => round0 (r.population_total : ℚ)

/-- `aggfunc='first'` for the `population_density` column. -/
def pick_density (recs : List EstRecord) (k : ℕ × String × String × ℚ × ℚ)
    (d : ℚ) : Option ℚ :=
  (recs.find? fun r => decide (pivot_key r = k ∧ r.buffer_distance = d)).map
    fun r => round0 r.population_density

/-- One row of the flattened pivot table written to
`koramangala_pois_python_population.csv`: the index columns plus one
`population_total_{d}m` and one `population_density_{d}m` column per buffer
distance.  These are all the columns that exist — `values=
['population_total', 'population_density']` keeps nothing else, so the
`estimation_method` column of the input records has no counterpart here. -/
structure PivotRow where
  poi_id : ℕ
  poi_name : String
  poi_category : String
  latitude : ℚ
  longitude : ℚ
  population_total_cols : List (ℚ × Option ℚ)
  population_density_cols : List (ℚ × Option ℚ)
deriving DecidableEq

/-- `WorldPopPythonAPI.save_results`
(scripts/11_worldpop_population.py lines 299-337): pivot the records on the
index `(poi_id, poi_name, poi_category, latitude, longitude)` with
`columns='buffer_distance'`, `values=['population_total',
'population_density']`, `aggfunc='first'`, round to 0 decimals and flatten.
Keys are listed in first-occurrence order (the records are produced in
ascending `poi_id` order, so this matches the sorted pivot index) and the
distance columns in ascending order (the sorted pivot columns). -/
def save_results (population_data : List EstRecord) : List PivotRow :=
  let keys := dedupFirst (population_data.map pivot_key)
  let dists :=
    List.insertionSort (· ≤ ·)
      (dedupFirst (population_data.map (·.buffer_distance)))
  keys.map fun k =>
    { poi_id := k.1
      poi_name := k.2.1
      poi_category := k.2.2.1
      latitude := k.2.2.2.1
      longitude := k.2.2.2.2
      population_total_cols := dists.map fun d => (d, pick_total population_data k d)
      population_density_cols := dists.map fun d => (d, pick_density population_data k d) }

/-- Replace the `estimation_method` tag of a record (used to compare how
`save_results` treats differently tagged inputs). -/
def retagged (s : String) (r : EstRecord) : EstRecord :=
  { r with estimation_method := s }

/-- The per-row metadata read by the extraction loop of
`extract_population_from_raster` (scripts/11_worldpop_population.py lines
199-231): the iteration index `idx`, the `.get('name', ...)` /
`.get('category', ...)` attributes, the `buffer_distance` column and the
centroid coordinates of the buffered geometry. -/
structure RowMeta where
  poi_id : ℕ
  poi_name : String
  poi_category : String
  buffer_distance : ℚ
  latitude : ℚ
  longitude : ℚ
deriving DecidableEq

/-- One record appended by `extract_population_from_raster`
(scripts/11_worldpop_population.py lines 209-218 and 222-231).  These are
all the keys of the appended dict: there is no status, reason or coverage
field. -/
structure PopRecord where
  poi_id : ℕ
  poi_name : String
  poi_category : String
  buffer_distance : ℚ
  latitude : ℚ
  longitude : ℚ
  population_total : ℚ
  population_density : ℚ
deriving DecidableEq

/-- The body of the extraction loop for one buffer row
(scripts/11_worldpop_population.py lines 200-231).  `mask_result` is the
outcome of the `rasterio.mask.mask` call: the clipped band when it
succeeds, or the exception message when it raises (e.g. `'Input shapes do
not overlap raster.'` for a buffer outside the raster extent, or an error
for a degenerate geometry).  On success the record sums the valid data and
derives the per-hectare density; on failure the `except` branch logs a
warning and appends a record with `population_total = 0` and
`population_density = 0` — the message itself is discarded. -/
def process_row (meta : RowMeta) (mask_result : Except String (List CellVal)) :
    PopRecord :=
  match mask_result with
  | Except.ok clipped =>
      let valid_data := validValues clipped
      let total_pop := valid_data.sum
      { poi_id := meta.poi_id
        poi_name := meta.poi_name
        poi_category := meta.poi_category
        buffer_distance := meta.buffer_distance
        latitude := meta.latitude
        longitude := meta.longitude
        population_total := total_pop
        population_density :=
          if 0 < total_pop then
            total_pop / (np_pi * meta.buffer_distance ^ 2 / 10000)
          else 0 }
  | Except.error _ =>
      { poi_id := meta.poi_id
        poi_name := meta.poi_name
        poi_category := meta.poi_category
        buffer_distance := meta.buffer_distance
        latitude := meta.latitude
        longitude := meta.longitude
        population_total := 0
        population_density := 0 }

/-- `WorldPopPythonAPI.extract_population_from_raster`
(scripts/11_worldpop_population.py lines 186-233): the loop over all buffer
rows.  Each row is processed by `process_row`; a failing row contributes
its fallback record and the loop continues with the remaining rows. -/
def extract_population_from_raster
    (rows : List (RowMeta × Except String (List CellVal))) : List PopRecord :=
  rows.map fun rs => process_row rs.1 rs.2

/-- Number of rows of the clipped in-memory band (`data.shape[0]` in
scripts/09_add_worldpop_data.py). -/
def shape0 (data : List (List CellVal)) : ℕ := data.length

/-- Number of columns of the clipped band (`data.shape[1]`). -/
def shape1 (data : List (List CellVal)) : ℕ := (data.headD []).length

/-- `data[row, col]` for indices already checked to be in bounds. -/
def cellAt (data : List (List CellVal)) (row col : ℤ) : CellVal :=
  (data.getD row.toNat []).getD col.toNat CellVal.nodata

/-- The value the script stores for `..._at_location`
(scripts/09_add_worldpop_data.py lines 266-269): the cell value, with NaN
replaced by 0 (`if np.isnan(pop_value): pop_value = 0`); a masked no-data
entry of the clipped band likewise contributes 0. -/
def float_of_cell : CellVal → ℚ
  | .valid v => v
  | .nan => 0
  | .nodata => 0

/-- `buffer_cells = max(1, int(0.002 / resolution))`
(scripts/09_add_worldpop_data.py line 274). -/
def buffer_cells (resolution : ℚ) : ℤ := max 1 (int_trunc (2 / 1000 / resolution))

/-- The clamped window bounds of scripts/09_add_worldpop_data.py lines
276-279: `(max(0, row - b), min(rows, row + b + 1), max(0, col - b),
min(cols, col + b + 1))`. -/
def window_bounds (rows cols row col b : ℤ) : ℤ × ℤ × ℤ × ℤ :=
  (max 0 (row - b), min rows (row + b + 1),
   max 0 (col - b), min cols (col + b + 1))

/-- `np.sum(buffer_data[~np.isnan(buffer_data)])` over the window slice
`data[r_min:r_max, c_min:c_max]` (scripts/09_add_worldpop_data.py lines
281-282): NaN entries are removed by the `isnan` filter and masked no-data
entries are ignored by the masked-array sum, so only valid values are
summed.  Python slicing with the already-clamped bounds is modelled by
`drop`/`take`. -/
def window_sum (data : List (List CellVal)) (rmin rmax cmin cmax : ℤ) : ℚ :=
  (((data.drop rmin.toNat).take (rmax - rmin).toNat).map fun rowvals =>
      (validValues ((rowvals.drop cmin.toNat).take (cmax - cmin).toNat)).sum).sum

/-- The pair of per-dataset values stored into `poi_data`
(scripts/09_add_worldpop_data.py lines 269 and 283, or 285-286): these are
the only fields recorded, with no coverage flag. -/
structure AtLocResult where
  at_location : ℚ
  in_buffer : ℚ
deriving DecidableEq

/-- The per-dataset body of
`RealWorldPopProcessor.create_poi_population_analysis`
(scripts/09_add_worldpop_data.py lines 256-291): with the POI already
inverse-transformed to integer indices `(row, col)`, if the indices are
inside the clipped band, record the at-location value and the clamped
window sum; otherwise (`else` branch, lines 284-286) record 0.0 for both
fields. -/
def poi_extract (data : List (List CellVal)) (resolution : ℚ) (row col : ℤ) :
    AtLocResult :=
  if 0 ≤ row ∧ row < (shape0 data : ℤ) ∧ 0 ≤ col ∧ col < (shape1 data : ℤ) then
    let pop_value := float_of_cell (cellAt data row col)
    let b := buffer_cells resolution
    let wb := window_bounds (shape0 data) (shape1 data) row col b
    { at_location := pop_value
      in_buffer := window_sum data wb.1 wb.2.1 wb.2.2.1 wb.2.2.2 }
  else
    { at_location := 0, in_buffer := 0 }

/-- The extracted total is the sum, over all raster cells, of the cell's
contribution when its center lies in the buffer and 0 otherwise. -/
theorem total_population_eq_sum (grid : Grid) (g : Geom) (r : ℚ) :
    total_population grid g r
      = (grid.map fun c =>
          if inBuffer g r (c.cx, c.cy) then cellContrib c else 0).sum := by
  induction grid with
  | nil => rfl
  | cons c l ih =>
      by_cases h : inBuffer g r (c.cx, c.cy)
      · cases hv : c.val <;>
          simp [total_population, sampled, validValues, List.filter_cons, h,
            cellContrib, hv] <;>
          simpa [total_population, sampled, validValues, cellContrib] using ih
      · simp [total_population, sampled, validValues, List.filter_cons, h,
          cellContrib] at ih ⊢
        exact ih

/-- Buffer membership is monotone in the radius. -/
theorem inBuffer_mono (g : Geom) {r1 r2 : ℚ} (h1 : 0 < r1) (h12 : r1 ≤ r2)
    (p : ℚ × ℚ) (hp : inBuffer g r1 p = true) : inBuffer g r2 p = true := by
  have hsq : r1 ^ 2 ≤ r2 ^ 2 := pow_le_pow_left₀ (le_of_lt h1) h12 2
  cases g with
  | pt x y =>
      simp only [inBuffer, Bool.and_eq_true, decide_eq_true_eq] at hp ⊢
      exact ⟨lt_of_lt_of_le h1 h12, le_trans hp.2 hsq⟩
  | rect x0 y0 x1 y1 =>
      simp only [inBuffer, Bool.and_eq_true, decide_eq_true_eq] at hp ⊢
      exact ⟨le_trans hp.1 h12, le_trans hp.2 hsq⟩

/-- C2: no-data and NaN cells are excluded from the aggregation entirely —
prepending such a cell to the raster leaves the extracted
`population_total` unchanged — and the concrete scenario holds: a raster
with a single valid cell of value 100 and all other cells no-data, fully
covered by the buffer, yields `population_total = 100` exactly. -/
theorem c2_nodata_excluded (grid : Grid) (g : Geom) (r : ℚ) (c : GCell)
    (hc : c.val = CellVal.nodata ∨ c.val = CellVal.nan) :
    total_population (c :: grid) g r = total_population grid g r
    ∧ total_population
        [⟨0, 0, CellVal.nodata⟩, ⟨10, 0, CellVal.nodata⟩,
         ⟨20, 0, CellVal.nodata⟩, ⟨0, 10, CellVal.nodata⟩,
         ⟨10, 10, CellVal.valid 100⟩, ⟨20, 10, CellVal.nodata⟩,
         ⟨0, 20, CellVal.nodata⟩, ⟨10, 20, CellVal.nodata⟩,
         ⟨20, 20, CellVal.nodata⟩] (Geom.pt 10 10) 100 = 100 := by
  constructor
  · have hzero : cellContrib c = 0 := by
      rcases hc with hc | hc <;> simp [cellContrib, hc]
    rw [total_population_eq_sum, total_population_eq_sum, List.map_cons,
      List.sum_cons, hzero]
    split <;> simp
  · norm_num [total_population, sampled, validValues, inBuffer, Geom.sqDistTo,
      sqDist, List.filter]

/-- C2 witness: the theorem applied to a concrete no-data cell, raster,
geometry and radius. -/
theorem c2_witness :
    total_population
        [⟨5, 5, CellVal.nodata⟩] (Geom.pt 0 0) 10
      = total_population [] (Geom.pt 0 0) 10
    ∧ total_population
        [⟨0, 0, CellVal.nodata⟩, ⟨10, 0, CellVal.nodata⟩,
         ⟨20, 0, CellVal.nodata⟩, ⟨0, 10, CellVal.nodata⟩,
         ⟨10, 10, CellVal.valid 100⟩, ⟨20, 10, CellVal.nodata⟩,
         ⟨0, 20, CellVal.nodata⟩, ⟨10, 20, CellVal.nodata⟩,
         ⟨20, 20, CellVal.nodata⟩] (Geom.pt 10 10) 100 = 100 :=
  c2_nodata_excluded [] (Geom.pt 0 0) 10 ⟨5, 5, CellVal.nodata⟩ (by decide)

/-- C5: for positive radii `r1 < r2` and a raster with no negative cell
values, the extracted `population_total` of the larger buffer is at least
that of the smaller buffer, for the same feature. -/
theorem c5_radius_monotone (grid : Grid) (g : Geom) (r1 r2 : ℚ)
    (h1 : 0 < r1) (h12 : r1 < r2)
    (hnn : ∀ c ∈ grid, 0 ≤ cellContrib c) :
    total_population grid g r1 ≤ total_population grid g r2 := by
  rw [total_population_eq_sum, total_population_eq_sum]
  apply List.sum_le_sum
  intro c hc
  by_cases hb : inBuffer g r1 (c.cx, c.cy)
  · rw [if_pos hb, if_pos (inBuffer_mono g h1 (le_of_lt h12) _ hb)]
  · rw [if_neg hb]
    split
    · exact hnn c hc
    · exact le_refl 0

/-- C5 witness: the theorem applied to a concrete raster, feature and pair
of radii. -/
theorem c5_witness :
    total_population [⟨3, 0, CellVal.valid 5⟩] (Geom.pt 0 0) 1
      ≤ total_population [⟨3, 0, CellVal.valid 5⟩] (Geom.pt 0 0) 4 :=
  c5_radius_monotone [⟨3, 0, CellVal.valid 5⟩] (Geom.pt 0 0) 1 4
    (by decide) (by decide) (by decide)

/-- C7 counterexample: the claim says a zero radius makes buffer generation
fail with `InvalidRadiusError`, but `create_buffer_zones` performs no
validation at all — on radius 0 it returns an ordinary buffer layer (one
row per POI), and the zero-radius point buffer is simply the empty polygon,
so even a valid cell located exactly at the POI contributes nothing. -/
theorem c7_counterexample :
    create_buffer_zones [⟨Geom.pt 0 0, "A", "shop"⟩] [0]
      = [(0, [{ poi := ⟨Geom.pt 0 0, "A", "shop"⟩, buffer_distance := 0,
                poi_id := 0 }])]
    ∧ total_population [⟨0, 0, CellVal.valid 5⟩] (Geom.pt 0 0) 0 = 0 := by
  constructor
  · rfl
  · decide

/-- C7 amended: `create_buffer_zones` performs no radius validation and no
`InvalidRadiusError` exists; it returns one buffer layer per requested
distance regardless of sign, and a non-positive radius produces an empty
point buffer whose extracted `population_total` is 0. -/
theorem c7_no_radius_validation (pois : List Poi) (buffer_distances : List ℚ)
    (grid : Grid) (x y r : ℚ) (hr : r ≤ 0) :
    (create_buffer_zones pois buffer_distances).length = buffer_distances.length
    ∧ total_population grid (Geom.pt x y) r = 0 := by
  constructor
  · simp [create_buffer_zones]
  · rw [total_population_eq_sum]
    apply List.sum_eq_zero
    intro q hq
    rcases List.mem_map.1 hq with ⟨c, _, hcq⟩
    have hb : inBuffer (Geom.pt x y) r (c.cx, c.cy) = false := by
      simp only [inBuffer, Bool.and_eq_false_iff, decide_eq_false_iff_not,
        not_lt]
      exact Or.inl hr
    rw [← hcq, hb]
    simp

/-- C7 witness: the amended theorem applied to a concrete POI list, radius
list containing 0, raster and feature. -/
theorem c7_witness :
    (create_buffer_zones [⟨Geom.pt 0 0, "A", "shop"⟩] [0, 100]).length = 2
    ∧ total_population [⟨0, 0, CellVal.valid 5⟩] (Geom.pt 0 0) 0 = 0 :=
  c7_no_radius_validation [⟨Geom.pt 0 0, "A", "shop"⟩] [0, 100]
    [⟨0, 0, CellVal.valid 5⟩] 0 0 0 (by decide)

/-- C6 counterexample: `create_buffer_zones` buffers the full geometry
(`pois_utm.geometry.buffer(distance)`), not the centroid, so a polygon
feature's catchment records are not those of a point feature at its
centroid.  For a 300x100 rectangle, a valid cell 50 units beyond its short
edge lies in the rectangle's 100-unit buffer but not in the 100-unit disc
around the centroid (150, 50): the extracted totals are 7 and 0. -/
theorem c6_counterexample :
    Geom.centroid (Geom.rect 0 0 300 100) = (150, 50)
    ∧ total_population [⟨350, 50, CellVal.valid 7⟩]
        (Geom.rect 0 0 300 100) 100 = 7
    ∧ total_population [⟨350, 50, CellVal.valid 7⟩]
        (Geom.pt 150 50) 100 = 0
    ∧ (7 : ℚ) ≠ 0 := by
  refine ⟨?_, ?_, ?_, by norm_num⟩
  · norm_num [Geom.centroid]
  · norm_num [total_population, sampled, validValues, inBuffer, Geom.sqDistTo,
      sqDist, clampQ, List.filter]
  · norm_num [total_population, sampled, validValues, inBuffer, Geom.sqDistTo,
      sqDist, List.filter]

/-- C6 amended: `create_buffer_zones` buffers each feature's full geometry
— every row of every buffer layer carries the feature's own geometry, whose
dilation by the layer's distance is the buffered polygon — and a polygon
feature's catchment records therefore coincide with those of a point
feature at its centroid only in the point case, where the centroid is the
point itself; for polygon features they differ in general (the
counterexample exhibits a rectangle whose records differ). -/
theorem c6_buffers_full_geometry (pois : List Poi) (buffer_distances : List ℚ)
    (grid : Grid) (x y r : ℚ) :
    ((create_buffer_zones pois buffer_distances).map fun layer =>
        layer.2.map fun row => row.poi.geom)
      = buffer_distances.map (fun _ => pois.map (·.geom))
    ∧ total_population grid
        (Geom.pt (Geom.centroid (Geom.pt x y)).1
          (Geom.centroid (Geom.pt x y)).2) r
      = total_population grid (Geom.pt x y) r := by
  constructor
  · have h : ∀ d : ℚ,
        ((pois.enum.map fun ig =>
            ({ poi := ig.2, buffer_distance := d, poi_id := ig.1 } :
              BufferRow)).map fun row => row.poi.geom)
          = pois.map (·.geom) := by
      intro d
      rw [List.map_map]
      have hcomp : ((fun row : BufferRow => row.poi.geom) ∘ fun ig : ℕ × Poi =>
          ({ poi := ig.2, buffer_distance := d, poi_id := ig.1 } : BufferRow))
          = (fun p : Poi => p.geom) ∘ Prod.snd := rfl
      rw [hcomp, ← List.map_map, List.enum_map_snd]
    simp only [create_buffer_zones, List.map_map]
    refine List.map_congr_left fun d _ => ?_
    exact h d
  · rfl

/-- C4 counterexample: the fallback estimator takes no `density_per_km2`
and no `variation_range` parameter, and even at the most favorable reading
— variation factor exactly 1 (random draw 1/2) and density read as the
hard-coded 6000 — the result is `int(...)` = 188, which is not
`π·(radius/1000)²·density_per_km2` (≈ 188.4956) exactly. -/
theorem c4_counterexample :
    estimate_population_simple 12 77 100 (1 / 2) = 188
    ∧ ((188 : ℚ) ≠ np_pi * (100 / 1000) ^ 2 * 6000) := by
  constructor
  · norm_num [estimate_population_simple, int_trunc, np_pi]
  · norm_num [np_pi]

/-- C4 amended: `estimate_population_simple` ignores the coordinates and is
deterministic in the random draw; with a draw `u ≥ 0` (the code draws from
`[0,1)`) it returns exactly
`⌊π·(radius/1000)²·6000·(0.8 + 0.4·u)⌋` — the density 6000 and the
variation range `[0.8, 1.2)` are hard-coded, not caller-supplied, and the
product is truncated to an integer. -/
theorem c4_estimator_closed_form (lat lon lat' lon' m r : ℚ) (hr : 0 ≤ r) :
    estimate_population_simple lat lon m r
        = estimate_population_simple lat' lon' m r
    ∧ estimate_population_simple lat lon m r
        = Int.floor (np_pi * (m / 1000) ^ 2 * 6000 * (8 / 10 + 4 / 10 * r)) := by
  constructor
  · rfl
  · have h1 : (0 : ℚ) ≤ np_pi := by norm_num [np_pi]
    have h2 : (0 : ℚ) ≤ (m / 1000) ^ 2 := sq_nonneg _
    have h3 : (0 : ℚ) ≤ 8 / 10 + 4 / 10 * r := by linarith
    have hnn : 0 ≤ np_pi * (m / 1000) ^ 2 * 6000 * (8 / 10 + 4 / 10 * r) :=
      mul_nonneg (mul_nonneg (mul_nonneg h1 h2) (by norm_num)) h3
    simp only [estimate_population_simple, int_trunc, if_pos hnn]

/-- C4 witness: the amended theorem applied at two coordinate pairs, radius
100 and draw 1/2. -/
theorem c4_witness :
    estimate_population_simple 1 2 100 (1 / 2)
        = estimate_population_simple 3 4 100 (1 / 2)
    ∧ estimate_population_simple 1 2 100 (1 / 2)
        = Int.floor (np_pi * ((100 : ℚ) / 1000) ^ 2 * 6000
            * (8 / 10 + 4 / 10 * (1 / 2))) :=
  c4_estimator_closed_form 1 2 3 4 100 (1 / 2) (by norm_num)

/-- C10: for any in-extent POI indices `(row, col)` and any resolution, the
clamped window bounds of `create_poi_population_analysis` satisfy
`0 <= r_min <= r_max <= rows` and `0 <= c_min <= c_max <= cols`, so the
window slice `data[r_min:r_max, c_min:c_max]` and its sum are always
defined with no out-of-bounds access. -/
theorem c10_window_bounds_safe (rows cols row col : ℤ) (res : ℚ)
    (hr0 : 0 ≤ row) (hr1 : row < rows) (hc0 : 0 ≤ col) (hc1 : col < cols) :
    0 ≤ (window_bounds rows cols row col (buffer_cells res)).1
    ∧ (window_bounds rows cols row col (buffer_cells res)).1
        ≤ (window_bounds rows cols row col (buffer_cells res)).2.1
    ∧ (window_bounds rows cols row col (buffer_cells res)).2.1 ≤ rows
    ∧ 0 ≤ (window_bounds rows cols row col (buffer_cells res)).2.2.1
    ∧ (window_bounds rows cols row col (buffer_cells res)).2.2.1
        ≤ (window_bounds rows cols row col (buffer_cells res)).2.2.2
    ∧ (window_bounds rows cols row col (buffer_cells res)).2.2.2 ≤ cols := by
  have hb : 1 ≤ buffer_cells res := le_max_left 1 _
  simp only [window_bounds]
  omega

/-- C10 witness: the theorem applied to a 2x2 band with the POI in the last
row and column, at 0.001-degree resolution. -/
theorem c10_witness :
    0 ≤ (window_bounds 2 2 1 1 (buffer_cells (1 / 1000))).1
    ∧ (window_bounds 2 2 1 1 (buffer_cells (1 / 1000))).1
        ≤ (window_bounds 2 2 1 1 (buffer_cells (1 / 1000))).2.1
    ∧ (window_bounds 2 2 1 1 (buffer_cells (1 / 1000))).2.1 ≤ 2
    ∧ 0 ≤ (window_bounds 2 2 1 1 (buffer_cells (1 / 1000))).2.2.1
    ∧ (window_bounds 2 2 1 1 (buffer_cells (1 / 1000))).2.2.1
        ≤ (window_bounds 2 2 1 1 (buffer_cells (1 / 1000))).2.2.2
    ∧ (window_bounds 2 2 1 1 (buffer_cells (1 / 1000))).2.2.2 ≤ 2 :=
  c10_window_bounds_safe 2 2 1 1 (1 / 1000)
    (by decide) (by decide) (by decide) (by decide)

/-- C1: evaluation of the code at the failing input.  A POI whose
inverse-transformed indices fall outside the clipped band (here row -3 on a
2x2 band of valid 5s) is recorded as `at_location = 0.0, in_buffer = 0.0` —
exactly the same record as an in-extent POI over a true zero reading —
with no coverage flag field in the record at all, contradicting the claimed
distinguished no-coverage result. -/
theorem c1_out_of_extent_zero :
    poi_extract [[CellVal.valid 5, CellVal.valid 5],
        [CellVal.valid 5, CellVal.valid 5]] (1 / 1000) (-3) 0
      = { at_location := 0, in_buffer := 0 }
    ∧ poi_extract [[CellVal.valid 0]] (1 / 1000) 0 0
      = { at_location := 0, in_buffer := 0 }
    ∧ poi_extract [[CellVal.valid 5, CellVal.valid 5],
        [CellVal.valid 5, CellVal.valid 5]] (1 / 1000) (-3) 0
      = poi_extract [[CellVal.valid 0]] (1 / 1000) 0 0 := by
  refine ⟨?_, ?_, ?_⟩ <;>
    norm_num [poi_extract, shape0, shape1, cellAt, float_of_cell,
      buffer_cells, int_trunc, window_bounds, window_sum, validValues]

/-- C8 counterexample: a failing buffer row (here: the
`rasterio.mask.mask` exception for a buffer outside the raster) is recorded
and the batch continues, but the record carries no reason code — it is
byte-for-byte the record of a successful extraction over cells that are all
no-data/NaN, so the claim's "failed entry with a reason code" is false. -/
theorem c8_counterexample :
    (extract_population_from_raster
        [(⟨0, "Cafe", "food", 100, 12, 77⟩,
            Except.error "Input shapes do not overlap raster."),
          (⟨1, "Bar", "food", 100, 12, 77⟩,
            Except.ok [CellVal.valid 3])]).length = 2
    ∧ process_row ⟨0, "Cafe", "food", 100, 12, 77⟩
        (Except.error "Input shapes do not overlap raster.")
      = process_row ⟨0, "Cafe", "food", 100, 12, 77⟩
          (Except.ok [CellVal.nodata, CellVal.nan]) := by
  constructor
  · rfl
  · norm_num [process_row, validValues]

/-- C8 amended: per-row failures are isolated — the loop records a fallback
entry with `population_total = 0` and `population_density = 0` for the
failed feature/radius pair and processes every remaining row — but the
entry carries no reason code: it is identical to the record of a successful
extraction whose window contains no valid cell. -/
theorem c8_failure_isolated
    (rows : List (RowMeta × Except String (List CellVal)))
    (meta : RowMeta) (msg : String) (w : List CellVal)
    (hw : validValues w = []) :
    (extract_population_from_raster rows).length = rows.length
    ∧ process_row meta (Except.error msg) = process_row meta (Except.ok w) := by
  constructor
  · simp [extract_population_from_raster]
  · simp [process_row, hw]

/-- C8 witness: the amended theorem applied to a concrete batch, row
metadata, exception message and all-no-data window. -/
theorem c8_witness :
    (extract_population_from_raster
        [(⟨0, "Cafe", "food", 100, 12, 77⟩,
            Except.error "Input shapes do not overlap raster.")]).length = 1
    ∧ process_row ⟨0, "Cafe", "food", 100, 12, 77⟩
        (Except.error "Input shapes do not overlap raster.")
      = process_row ⟨0, "Cafe", "food", 100, 12, 77⟩
          (Except.ok [CellVal.nodata]) :=
  c8_failure_isolated
    [(⟨0, "Cafe", "food", 100, 12, 77⟩,
        Except.error "Input shapes do not overlap raster.")]
    ⟨0, "Cafe", "food", 100, 12, 77⟩
    "Input shapes do not overlap raster." [CellVal.nodata] rfl

/-- The pivoted `population_total` column never reads the
`estimation_method` field: retagging every input record leaves it
unchanged. -/
theorem pick_total_retag (s : String) (recs : List EstRecord)
    (k : ℕ × String × String × ℚ × ℚ) (d : ℚ) :
    pick_total (recs.map (retagged s)) k d = pick_total recs k d := by
  simp only [pick_total, List.find?_map, Option.map_map]
  rfl

/-- The pivoted `population_density` column never reads the
`estimation_method` field. -/
theorem pick_density_retag (s : String) (recs : List EstRecord)
    (k : ℕ × String × String × ℚ × ℚ) (d : ℚ) :
    pick_density (recs.map (retagged s)) k d = pick_density recs k d := by
  simp only [pick_density, List.find?_map, Option.map_map]
  rfl

/-- `save_results` is invariant under retagging its input records: the
pivot keeps only the index and the two `values` columns, so the
`estimation_method` column is dropped from the final table. -/
theorem save_results_retag (s : String) (recs : List EstRecord) :
    save_results (recs.map (retagged s)) = save_results recs := by
  have hkeys : (recs.map (retagged s)).map pivot_key = recs.map pivot_key := by
    rw [List.map_map]
    rfl
  have hdist : (recs.map (retagged s)).map (·.buffer_distance)
      = recs.map (·.buffer_distance) := by
    rw [List.map_map]
    rfl
  simp only [save_results, hkeys, hdist, pick_total_retag, pick_density_retag]

/-- Every record of the fallback path carries
`estimation_method = 'api_fallback'`. -/
theorem estimation_method_of_mem (pois : List Poi) (ds : List ℚ)
    (rand : ℕ → ℚ) (rec : EstRecord)
    (h : rec ∈ create_population_estimates_api pois ds rand) :
    rec.estimation_method = "api_fallback" := by
  simp only [create_population_estimates_api, List.mem_flatMap,
    List.mem_map] at h
  obtain ⟨ipoi, _, jd, _, hrec⟩ := h
  subst hrec
  rfl

/-- A concrete record of the fallback path (the one produced for a single
point POI with one 100 m buffer and random draw 1/2). -/
def c3_sample_record : EstRecord :=
  { poi_id := 0
    poi_name := "Cafe"
    poi_category := "food"
    latitude := 12
    longitude := 77
    buffer_distance := 100
    population_total := estimate_population_simple 12 77 100 (1 / 2)
    population_density :=
      if 0 < estimate_population_simple 12 77 100 (1 / 2) then
        ((estimate_population_simple 12 77 100 (1 / 2) : ℤ) : ℚ)
          / (np_pi * (100 : ℚ) ^ 2 / 10000)
      else 0
    estimation_method := "api_fallback" }

/-- C3 counterexample: the fallback path tags its records
`estimation_method = 'api_fallback'` (there is no `data_source` field at
all), and `save_results` drops that tag: retagging a record as "measured"
changes the input but produces the identical final table, so the tag does
not propagate into the output and estimated records are silently merged
with measured ones. -/
theorem c3_counterexample :
    (create_population_estimates_api [⟨Geom.pt 77 12, "Cafe", "food"⟩] [100]
        (fun _ => 1 / 2)).map (fun r => r.estimation_method)
      = ["api_fallback"]
    ∧ retagged "measured"
        { poi_id := 0, poi_name := "Cafe", poi_category := "food",
          latitude := 12, longitude := 77, buffer_distance := 100,
          population_total := 188, population_density := 60,
          estimation_method := "api_fallback" }
      ≠ { poi_id := 0, poi_name := "Cafe", poi_category := "food",
          latitude := 12, longitude := 77, buffer_distance := 100,
          population_total := 188, population_density := 60,
          estimation_method := "api_fallback" }
    ∧ save_results
        [retagged "measured"
          { poi_id := 0, poi_name := "Cafe", poi_category := "food",
            latitude := 12, longitude := 77, buffer_distance := 100,
            population_total := 188, population_density := 60,
            estimation_method := "api_fallback" }]
      = save_results
          [{ poi_id := 0, poi_name := "Cafe", poi_category := "food",
             latitude := 12, longitude := 77, buffer_distance := 100,
             population_total := 188, population_density := 60,
             estimation_method := "api_fallback" }] := by
  refine ⟨rfl, by decide, ?_⟩
  exact save_results_retag "measured"
    [{ poi_id := 0, poi_name := "Cafe", poi_category := "food",
       latitude := 12, longitude := 77, buffer_distance := 100,
       population_total := 188, population_density := 60,
       estimation_method := "api_fallback" }]

/-- C3 amended: every record of the fallback path carries the tag
`estimation_method = 'api_fallback'` (not `data_source = estimated`), but
the tag does not propagate into the final output table: `save_results`
pivots only the population columns, so its output is invariant under
retagging and estimated records are indistinguishable from measured ones
there. -/
theorem c3_tag_not_propagated (pois : List Poi) (ds : List ℚ)
    (rand : ℕ → ℚ) (rec : EstRecord)
    (h : rec ∈ create_population_estimates_api pois ds rand)
    (s : String) (recs : List EstRecord) :
    rec.estimation_method = "api_fallback"
    ∧ save_results (recs.map (retagged s)) = save_results recs :=
  ⟨estimation_method_of_mem pois ds rand rec h, save_results_retag s recs⟩

/-- C3 witness: the amended theorem applied to a concrete POI list, the
concrete record the fallback path produces for it, and a concrete record
list retagged as "measured". -/
theorem c3_witness :
    c3_sample_record.estimation_method = "api_fallback"
    ∧ save_results ([c3_sample_record].map (retagged "measured"))
      = save_results [c3_sample_record] :=
  c3_tag_not_propagated [⟨Geom.pt 77 12, "Cafe", "food"⟩] [100]
    (fun _ => 1 / 2) c3_sample_record (List.Mem.head _) "measured"
    [c3_sample_record]

end Koramangala
